import Mathlib

/-!
Verification development for the `wisharify` utility (`src/main.py`).

The program is a linear script: run `nmcli` to find the active SSID, look a
password up in the OS keyring, fall back to an elevated `pkexec nmcli` read,
and display a Wi-Fi QR code. We shallowly embed it as pure Lean functions
over an explicit environment that supplies the results of the external
collaborators (subprocess outputs, keyring lookups). Each run is modelled by
the list of externally visible events it produces.

String primitives (`str.strip`, `str.split`, `str.splitlines`,
`str.startswith`) are re-implemented structurally over `List Char` so that
every definition is kernel-executable; only `\n` is treated as a line break
(the outputs in question are `nmcli` terse output, which is `\n`-separated).
Python exceptions are modelled as `Except` values: a nonzero return code
makes `run_command` return `.error` (the `CalledProcessError` of the source),
and the keyring operations return `Except KeyringError _`.
-/

/-- Split a character list at every occurrence of `sep` (Python `str.split(sep)`
for a one-character separator): always at least one piece, empty pieces kept. -/
def splitOnChar (sep : Char) : List Char → List (List Char)
  | [] => [[]]
  | c :: cs =>
    if c = sep then
      [] :: splitOnChar sep cs
    else
      match splitOnChar sep cs with
      | [] => [[c]]
      | p :: ps => (c :: p) :: ps

/-- Python `str.split(":")`, for one-character separators. -/
def pySplitOn (s : String) (sep : Char) : List String :=
  (splitOnChar sep s.data).map fun l => ⟨l⟩

/-- Python `str.splitlines()` restricted to `\n` line breaks: empty string
gives no lines, and a trailing newline does not produce a trailing empty
line. -/
def pySplitlines (s : String) : List String :=
  if s.data = [] then []
  else
    let parts := splitOnChar '\n' s.data
    let parts := if s.data.getLast? = some '\n' then parts.dropLast else parts
    parts.map fun l => ⟨l⟩

/-- Python `str.strip()`: drop leading and trailing whitespace. -/
def pyStrip (s : String) : String :=
  ⟨((s.data.dropWhile Char.isWhitespace).reverse.dropWhile Char.isWhitespace).reverse⟩

/-- `t` is a leading segment of `s`, on character lists. -/
def charsLeading : List Char → List Char → Bool
  | [], _ => true
  | _ :: _, [] => false
  | a :: as, b :: bs => a == b && charsLeading as bs

/-- Python `s.startswith(t)`. -/
def pyStartsWith (s t : String) : Bool :=
  charsLeading t.data s.data

namespace Wisharify

-- === Configuration constants of `src/main.py` ===

def KEYRING_SERVICE_NAME : String := "nmcli-wifi"

def NMCLI_WIFI_FIELDS : String := "active,ssid"

def NMCLI_CONNECTION_FIELDS : String := "active,uuid"

def NMCLI_PASSWORD_FIELD : String := "802-11-wireless-security.psk"

/-- The command run by `get_current_ssid`:
`f"nmcli -t -f {NMCLI_WIFI_FIELDS} dev wifi"`. -/
def wifiCmd : String := "nmcli -t -f " ++ NMCLI_WIFI_FIELDS ++ " dev wifi"

/-- The command run first by `get_wifi_password`:
`f"nmcli -t -f {NMCLI_CONNECTION_FIELDS} connection show"`. -/
def connCmd : String := "nmcli -t -f " ++ NMCLI_CONNECTION_FIELDS ++ " connection show"

/-- The elevated command run by `get_wifi_password`:
`f"pkexec nmcli -s -g {NMCLI_PASSWORD_FIELD} connection show {uuid}"`. -/
def pkexecCmd (uuid : String) : String :=
  "pkexec nmcli -s -g " ++ NMCLI_PASSWORD_FIELD ++ " connection show " ++ uuid

-- === Subprocess model ===

/-- Outcome of one completed subprocess: what `process.communicate()` hands
back to `run_command`. -/
structure CmdResult where
  returncode : Int
  stdout : String
  stderr : String
deriving Repr, DecidableEq

/-- The data of a raised `subprocess.CalledProcessError`. -/
structure ProcError where
  returncode : Int
  cmd : String
  output : String
  stderr : String
deriving Repr, DecidableEq

/-- The data of a raised `keyring.errors.KeyringError`. -/
structure KeyringError where
  msg : String
deriving Repr, DecidableEq

/-- `run_command(command, check)`: with `check` set and a nonzero exit code it
raises `CalledProcessError`; otherwise it returns `stdout.decode().strip()`. -/
def run_command (command : String) (res : CmdResult) (check : Bool) :
    Except ProcError String :=
  if check = true ∧ res.returncode ≠ 0 then
    .error ⟨res.returncode, command, res.stdout, res.stderr⟩
  else
    .ok (pyStrip res.stdout)

-- === Events and environment ===

/-- Externally visible events of one run: each completed subprocess
invocation, each keyring access, and each GUI surface (QR window, modal
error dialog). This alphabet covers every interaction with the outside world
present in `src/main.py`; in particular the source contains no file reads or
writes, so no file event exists. -/
inductive Event where
  | runCmd (command : String)
  | keyGet (service account : String)
  | keySet (service account password : String)
  | showQR (ssid password : String)
  | showError (title message : String)
deriving Repr, DecidableEq

/-- The environment of one run: the result of each subprocess (keyed by the
full command string) and the outcomes of the two keyring operations. -/
structure Env where
  cmd : String → CmdResult
  keyGetRes : Except KeyringError (Option String)
  keySetRes : Except KeyringError Unit

-- === The two parsing functions ===

/-- The `for line in output.splitlines()` loop shared by `get_current_ssid`
and `get_wifi_password`: at the first line starting with `"yes"` take
`line.split(":")[1]`; `none` both when no such line exists and when the
matching line has no second field (the `IndexError` is caught and turns into
`None`). -/
def first_yes_second_field : List String → Option String
  | [] => none
  | line :: rest =>
    if pyStartsWith line "yes" then (pySplitOn line ':')[1]?
    else first_yes_second_field rest

/-- `get_current_ssid()`: run `nmcli -t -f active,ssid dev wifi` and scan for
the first `yes` line; every exception is caught and yields `None`. The second
component is the trace of commands issued. -/
def get_current_ssid (env : String → CmdResult) : Option String × List Event :=
  (match run_command wifiCmd (env wifiCmd) true with
   | .error _ => none
   | .ok output => first_yes_second_field (pySplitlines output),
   [.runCmd wifiCmd])

/-- `get_wifi_password(ssid)`: list connections, take the UUID field of the
first `yes` line, then run the elevated `pkexec` read; every exception is
caught and yields `None`. The `ssid` argument is only ever logged. -/
def get_wifi_password (env : String → CmdResult) (_ssid : String) :
    Option String × List Event :=
  match run_command connCmd (env connCmd) true with
  | .error _ => (none, [.runCmd connCmd])
  | .ok output =>
    match first_yes_second_field (pySplitlines output) with
    | none => (none, [.runCmd connCmd])
    | some uuid =>
      match run_command (pkexecCmd uuid) (env (pkexecCmd uuid)) true with
      | .error _ => (none, [.runCmd connCmd, .runCmd (pkexecCmd uuid)])
      | .ok password =>
        (some (pyStrip password), [.runCmd connCmd, .runCmd (pkexecCmd uuid)])

/-- The UUID `get_wifi_password` would extract: `none` when the connection
listing fails, has no `yes` line, or that line has no second field. -/
def uuid_of (env : String → CmdResult) : Option String :=
  match run_command connCmd (env connCmd) true with
  | .error _ => none
  | .ok output => first_yes_second_field (pySplitlines output)

-- === QR payload ===

/-- The payload built at the top of `show_qr_code`:
`wifi_config = f"WIFI:T:WPA;S:{ssid};P:{password};;"`. -/
def wifi_config (ssid password : String) : String :=
  s!"WIFI:T:WPA;S:{ssid};P:{password};;"

-- === main ===

/-- Dialog text of the missing-SSID error. -/
def noSsidMsg : String := "No SSID detected. Connect to a Wi-Fi network."

/-- Dialog text of the missing-password error. -/
def pwNotFoundMsg (ssid : String) : String :=
  s!"Password not found for SSID '{ssid}'."

/-- Dialog text of the top-level exception handler. -/
def criticalMsg (e : String) : String :=
  "An unexpected error occurred:\n" ++ e

/-- The fetch-and-cache path of `main`: called when the keyring lookup
produced no usable password. A fetched falsy (empty) password is not cached;
a raised `KeyringError` from `set_password` reaches the top-level handler. -/
def main_fetch (env : Env) (ssid : String) : List Event :=
  let r := get_wifi_password env.cmd ssid
  match r.1 with
  | some p =>
    if p = "" then r.2 ++ [.showError "Error" (pwNotFoundMsg ssid)]
    else
      match env.keySetRes with
      | .error e => r.2 ++ [.showError "Critical Error" (criticalMsg e.msg)]
      | .ok _ =>
        r.2 ++ [.keySet KEYRING_SERVICE_NAME ssid p, .showQR ssid p]
  | none => r.2 ++ [.showError "Error" (pwNotFoundMsg ssid)]

/-- The part of `main` after the SSID is known: keyring lookup, the
`if not password` falsy test (both `None` and `""` trigger the fetch), and
the final show-or-error step. -/
def main_cached (env : Env) (ssid : String) : List Event :=
  match env.keyGetRes with
  | .error e => [.showError "Critical Error" (criticalMsg e.msg)]
  | .ok (some c) => if c = "" then main_fetch env ssid else [.showQR ssid c]
  | .ok none => main_fetch env ssid

/-- `main()`: detect the SSID (`if not ssid` treats `None` and `""` alike),
then look up, possibly fetch and cache, and show either the QR window or one
modal error dialog. -/
def main (env : Env) : List Event :=
  let r := get_current_ssid env.cmd
  match r.1 with
  | none => r.2 ++ [.showError "Error" noSsidMsg]
  | some ssid =>
    if ssid = "" then r.2 ++ [.showError "Error" noSsidMsg]
    else r.2 ++ .keyGet KEYRING_SERVICE_NAME ssid :: main_cached env ssid

-- === Spec-side definitions (refinement targets, written from the claims) ===

/-- Claim-side extractor, following the claim wording for `get_current_ssid`:
the first line whose *active field* (first colon-delimited field) equals
`"yes"`, returning the *full* SSID field, i.e. everything after the first
colon, colons included. -/
def claimed_full_active_field (output : String) : Option String :=
  ((pySplitlines output).find? fun l => (pySplitOn l ':').head? == some "yes").map
    fun line => String.intercalate ":" ((pySplitOn line ':').drop 1)

/-- Claim-side predicate for C5: some line has an active field equal to
`"yes"`. -/
def has_active_yes (output : String) : Bool :=
  (pySplitlines output).any fun l => (pySplitOn l ':').head? == some "yes"

/-- Amended extractor actually implemented by the loop: the second
colon-delimited field of the first line *starting with* `"yes"`, `none` when
no such line exists or that line has no second field. -/
def active_line_second_field (output : String) : Option String :=
  ((pySplitlines output).find? fun l => pyStartsWith l "yes").bind
    fun line => (pySplitOn line ':')[1]?

-- === Event classification helpers ===

/-- The event is a modal error dialog. -/
def isErrEvent : Event → Bool
  | .showError _ _ => true
  | _ => false

/-- The event is the QR-code window. -/
def isQREvent : Event → Bool
  | .showQR _ _ => true
  | _ => false

/-- The event is a keyring write. -/
def isKeySetEvent : Event → Bool
  | .keySet _ _ _ => true
  | _ => false

/-- The event is an invocation of the elevated `pkexec` command. -/
def isPkexecEvent : Event → Bool
  | .runCmd c => pyStartsWith c "pkexec "
  | _ => false

/-- The commands invoked in a trace, in order. -/
def cmdsOf (t : List Event) : List String :=
  t.filterMap fun e =>
    match e with
    | .runCmd c => some c
    | _ => none

/-- The QR window's password argument is nonempty. -/
def qrNonEmpty : Event → Bool
  | .showQR _ p => !(p == "")
  | _ => true

/-- A keyring write uses the configured service name. -/
def keySetServiceOK : Event → Bool
  | .keySet svc _ _ => svc == KEYRING_SERVICE_NAME
  | _ => true

-- === Concrete environments used in closed instances ===

/-- Command environment whose wifi listing has an SSID containing a colon. -/
def cexEnvColon : String → CmdResult := fun _ => ⟨0, "yes:a:b", ""⟩

/-- Command environment whose connection listing has a line starting with
`yes` whose active field is nevertheless not `"yes"`. -/
def cexEnvYesx : String → CmdResult := fun _ => ⟨0, "yesx:u:v", ""⟩

/-- Run environment with a detected SSID, an empty keyring, and a connection
listing with no active line. -/
def cexEnvNoActive : Env :=
  ⟨fun c => if c = wifiCmd then ⟨0, "yes:net", ""⟩ else ⟨0, "no:u", ""⟩,
   .ok none, .ok ()⟩

/-- Command environment with one inactive and one active wifi line. -/
def witEnvWifi : String → CmdResult := fun _ => ⟨0, "no:x\nyes:net", ""⟩

/-- Command environment with one active and one inactive connection line. -/
def witEnvConn : String → CmdResult := fun _ => ⟨0, "yes:u1\nno:u2", ""⟩

/-- Command environment in which every command exits nonzero. -/
def witEnvFail : String → CmdResult := fun _ => ⟨1, "boom", "err"⟩

/-- Run environment in which everything succeeds: SSID `net`, empty keyring,
active connection `u1`, nonempty pre-shared key. -/
def witEnvHappy : Env :=
  ⟨fun c => if c = wifiCmd then ⟨0, "yes:net", ""⟩ else ⟨0, "yes:u1", ""⟩,
   .ok none, .ok ()⟩

/-- Run environment in which the keyring holds an empty cached password and
the elevated read returns only whitespace. -/
def witEnvBlank : Env :=
  ⟨fun c =>
      if c = wifiCmd then ⟨0, "yes:net", ""⟩
      else if c = connCmd then ⟨0, "yes:u1", ""⟩
      else ⟨0, "  ", ""⟩,
   .ok (some ""), .ok ()⟩

-- === Helper lemmas ===

/-- An `.ok` result of `run_command` is the stripped stdout. -/
theorem run_command_ok (command : String) (res : CmdResult) (check : Bool)
    (o : String) (h : run_command command res check = .ok o) :
    o = pyStrip res.stdout := by
  unfold run_command at h
  split at h
  · cases h
  · cases h; rfl

/-- The loop of both parsers is the `find?`-then-index description. -/
theorem first_yes_second_field_eq_find (ls : List String) :
    first_yes_second_field ls =
      (ls.find? fun l => pyStartsWith l "yes").bind
        fun line => (pySplitOn line ':')[1]? := by
  induction ls with
  | nil => rfl
  | cons a t ih =>
    by_cases h : pyStartsWith a "yes" <;>
      simp [first_yes_second_field, List.find?_cons, h, ih]

theorem wifiCmd_ne_connCmd : wifiCmd ≠ connCmd := by decide

theorem pkexecCmd_length (u : String) : (pkexecCmd u).length = 64 + u.length := by
  have h : (pkexecCmd u).length =
      ("pkexec nmcli -s -g " ++ NMCLI_PASSWORD_FIELD ++ " connection show ").length
        + u.length :=
    String.length_append _ _
  have h64 : ("pkexec nmcli -s -g " ++ NMCLI_PASSWORD_FIELD
      ++ " connection show ").length = 64 := by decide
  omega

theorem pkexecCmd_ne_wifiCmd (u : String) : pkexecCmd u ≠ wifiCmd := by
  intro h
  have hl := congrArg String.length h
  rw [pkexecCmd_length] at hl
  have hw : wifiCmd.length = 32 := by decide
  omega

theorem pkexecCmd_ne_connCmd (u : String) : pkexecCmd u ≠ connCmd := by
  intro h
  have hl := congrArg String.length h
  rw [pkexecCmd_length] at hl
  have hc : connCmd.length = 39 := by decide
  omega

theorem isPkexecEvent_pkexecCmd (u : String) :
    isPkexecEvent (.runCmd (pkexecCmd u)) = true := rfl

theorem isPkexecEvent_wifiCmd : isPkexecEvent (.runCmd wifiCmd) = false := rfl

theorem isPkexecEvent_connCmd : isPkexecEvent (.runCmd connCmd) = false := rfl

/-- `get_current_ssid` always issues exactly the one wifi-listing command. -/
theorem get_current_ssid_trace (env : String → CmdResult) :
    (get_current_ssid env).2 = [.runCmd wifiCmd] := rfl

/-- Shape of a `get_wifi_password` run: either no UUID was found and only the
connection listing ran, or the extracted UUID's `pkexec` read also ran. -/
theorem gwp_shape (env : String → CmdResult) (s : String) :
    (uuid_of env = none ∧ get_wifi_password env s = (none, [.runCmd connCmd]))
    ∨ ∃ u, uuid_of env = some u ∧
        (get_wifi_password env s).2 = [.runCmd connCmd, .runCmd (pkexecCmd u)] := by
  cases hr : run_command connCmd (env connCmd) true with
  | error e =>
    exact .inl ⟨by simp [uuid_of, hr], by simp [get_wifi_password, hr]⟩
  | ok output =>
    cases hf : first_yes_second_field (pySplitlines output) with
    | none =>
      exact .inl ⟨by simp [uuid_of, hr, hf], by simp [get_wifi_password, hr, hf]⟩
    | some u =>
      refine .inr ⟨u, by simp [uuid_of, hr, hf], ?_⟩
      cases hp : run_command (pkexecCmd u) (env (pkexecCmd u)) true <;>
        simp [get_wifi_password, hr, hf, hp]

/-- The `pkexec` read appears in a `get_wifi_password` trace exactly when a
UUID was extracted. -/
theorem gwp_pkexec_count (env : String → CmdResult) (s : String) :
    (get_wifi_password env s).2.countP isPkexecEvent
      = if (uuid_of env).isSome then 1 else 0 := by
  rcases gwp_shape env s with ⟨hu, hg⟩ | ⟨u, hu, hg⟩
  · simp [hg, hu, List.countP_cons, isPkexecEvent_connCmd]
  · simp [hg, hu, List.countP_cons, isPkexecEvent_connCmd, isPkexecEvent_pkexecCmd]

/-- The connection listing always runs inside `get_wifi_password`. -/
theorem gwp_conn_mem (env : String → CmdResult) (s : String) :
    Event.runCmd connCmd ∈ (get_wifi_password env s).2 := by
  rcases gwp_shape env s with ⟨hu, hg⟩ | ⟨u, hu, hg⟩ <;> simp [hg]

/-- A `main_fetch` trace is the `get_wifi_password` trace followed by
GUI/keyring events. -/
theorem main_fetch_split (env : Env) (s : String) :
    ∃ tail, main_fetch env s = (get_wifi_password env.cmd s).2 ++ tail := by
  cases hp : (get_wifi_password env.cmd s).1 with
  | none =>
    exact ⟨[.showError "Error" (pwNotFoundMsg s)], by simp [main_fetch, hp]⟩
  | some p =>
    by_cases hpe : p = ""
    · exact ⟨[.showError "Error" (pwNotFoundMsg s)],
        by simp [main_fetch, hp, hpe]⟩
    · cases hset : env.keySetRes with
      | error e =>
        exact ⟨[.showError "Critical Error" (criticalMsg e.msg)],
          by simp [main_fetch, hp, hpe, hset]⟩
      | ok _ =>
        exact ⟨[.keySet KEYRING_SERVICE_NAME s p, .showQR s p],
          by simp [main_fetch, hp, hpe, hset]⟩

/-- `main_fetch` adds no command invocation beyond those of
`get_wifi_password`. -/
theorem main_fetch_pkexec_count (env : Env) (s : String) :
    (main_fetch env s).countP isPkexecEvent
      = (get_wifi_password env.cmd s).2.countP isPkexecEvent := by
  cases hp : (get_wifi_password env.cmd s).1 with
  | none =>
    simp [main_fetch, hp, List.countP_append, List.countP_cons, isPkexecEvent]
  | some p =>
    by_cases hpe : p = ""
    · simp [main_fetch, hp, hpe, List.countP_append, List.countP_cons, isPkexecEvent]
    · cases hset : env.keySetRes <;>
        simp [main_fetch, hp, hpe, hset, List.countP_append, List.countP_cons,
          isPkexecEvent]

/-- With a detected, nonempty SSID, `main` is the wifi command, the keyring
lookup, and the rest of the run. -/
theorem main_unfold_detected (env : Env) (s : String)
    (hs : (get_current_ssid env.cmd).1 = some s) (hne : s ≠ "") :
    main env
      = .runCmd wifiCmd :: .keyGet KEYRING_SERVICE_NAME s :: main_cached env s := by
  simp [main, hs, hne, get_current_ssid_trace]

/-- A keyring lookup with no usable password (absent or empty) routes to the
fetch path. -/
theorem main_cached_fetch (env : Env) (s : String)
    (hk : env.keyGetRes = .ok none ∨ env.keyGetRes = .ok (some "")) :
    main_cached env s = main_fetch env s := by
  rcases hk with h | h <;> simp [main_cached, h]

/-- Every `main_fetch` run either ends in one modal error dialog after the
connection listing (and possibly the `pkexec` read), or caches a nonempty
password and shows the QR window. -/
theorem main_fetch_shape (env : Env) (s : String) :
    (∃ t ttl m,
      (t = [Event.runCmd connCmd]
        ∨ ∃ u, t = [Event.runCmd connCmd, Event.runCmd (pkexecCmd u)])
      ∧ (ttl = "Error" ∨ ttl = "Critical Error")
      ∧ main_fetch env s = t ++ [.showError ttl m])
    ∨ (∃ u p, p ≠ "" ∧ main_fetch env s
        = [Event.runCmd connCmd, Event.runCmd (pkexecCmd u),
           .keySet KEYRING_SERVICE_NAME s p, .showQR s p]) := by
  rcases gwp_shape env.cmd s with ⟨hu, hg⟩ | ⟨u, hu, hg⟩
  · exact .inl ⟨[Event.runCmd connCmd], "Error", pwNotFoundMsg s, .inl rfl, .inl rfl,
      by simp [main_fetch, hg]⟩
  · cases hp : (get_wifi_password env.cmd s).1 with
    | none =>
      exact .inl ⟨[Event.runCmd connCmd, Event.runCmd (pkexecCmd u)], "Error",
        pwNotFoundMsg s, .inr ⟨u, rfl⟩, .inl rfl, by simp [main_fetch, hp, hg]⟩
    | some p =>
      by_cases hpe : p = ""
      · exact .inl ⟨[Event.runCmd connCmd, Event.runCmd (pkexecCmd u)], "Error",
          pwNotFoundMsg s, .inr ⟨u, rfl⟩, .inl rfl,
          by simp [main_fetch, hp, hpe, hg]⟩
      · cases hset : env.keySetRes with
        | error e =>
          exact .inl ⟨[Event.runCmd connCmd, Event.runCmd (pkexecCmd u)],
            "Critical Error", criticalMsg e.msg, .inr ⟨u, rfl⟩, .inr rfl,
            by simp [main_fetch, hp, hpe, hg, hset]⟩
        | ok _ =>
          exact .inr ⟨u, p, hpe, by simp [main_fetch, hp, hpe, hg, hset]⟩

/-- Exhaustive trace forms of a `main` run. -/
theorem main_shape (env : Env) :
    main env = [.runCmd wifiCmd, .showError "Error" noSsidMsg]
    ∨ (∃ s m, main env
        = [.runCmd wifiCmd, .keyGet KEYRING_SERVICE_NAME s,
           .showError "Critical Error" m])
    ∨ (∃ s c, c ≠ "" ∧ main env
        = [.runCmd wifiCmd, .keyGet KEYRING_SERVICE_NAME s, .showQR s c])
    ∨ (∃ s t ttl m,
        (t = [Event.runCmd connCmd]
          ∨ ∃ u, t = [Event.runCmd connCmd, Event.runCmd (pkexecCmd u)])
        ∧ (ttl = "Error" ∨ ttl = "Critical Error")
        ∧ main env = .runCmd wifiCmd :: .keyGet KEYRING_SERVICE_NAME s
            :: (t ++ [.showError ttl m]))
    ∨ (∃ s u p, p ≠ "" ∧ main env
        = [.runCmd wifiCmd, .keyGet KEYRING_SERVICE_NAME s,
           .runCmd connCmd, .runCmd (pkexecCmd u),
           .keySet KEYRING_SERVICE_NAME s p, .showQR s p]) := by
  cases h1 : (get_current_ssid env.cmd).1 with
  | none => exact .inl (by simp [main, h1, get_current_ssid_trace])
  | some s =>
    by_cases hs : s = ""
    · exact .inl (by simp [main, h1, hs, get_current_ssid_trace])
    · have hm := main_unfold_detected env s h1 hs
      cases hk : env.keyGetRes with
      | error e =>
        exact .inr (.inl ⟨s, criticalMsg e.msg, by simp [hm, main_cached, hk]⟩)
      | ok copt =>
        cases copt with
        | none =>
          have hmc : main_cached env s = main_fetch env s := by
            simp [main_cached, hk]
          rcases main_fetch_shape env s with ⟨t, ttl, m, ht, httl, hf⟩ | ⟨u, p, hp, hf⟩
          · exact .inr (.inr (.inr (.inl ⟨s, t, ttl, m, ht, httl,
              by rw [hm, hmc, hf]⟩)))
          · exact .inr (.inr (.inr (.inr ⟨s, u, p, hp, by rw [hm, hmc, hf]⟩)))
        | some c =>
          by_cases hc : c = ""
          · have hmc : main_cached env s = main_fetch env s := by
              simp [main_cached, hk, hc]
            rcases main_fetch_shape env s with ⟨t, ttl, m, ht, httl, hf⟩ | ⟨u, p, hp, hf⟩
            · exact .inr (.inr (.inr (.inl ⟨s, t, ttl, m, ht, httl,
                by rw [hm, hmc, hf]⟩)))
            · exact .inr (.inr (.inr (.inr ⟨s, u, p, hp, by rw [hm, hmc, hf]⟩)))
          · exact .inr (.inr (.inl ⟨s, c, hc, by simp [hm, main_cached, hk, hc]⟩))

-- === Claim theorems ===

/-- Claim C1: the QR payload built by `show_qr_code` is exactly
`"WIFI:T:WPA;S:" ++ ssid ++ ";P:" ++ password ++ ";;"`, with no escaping or
other transformation of either argument. -/
theorem wifi_config_plain_concat (s p : String) :
    wifi_config s p = "WIFI:T:WPA;S:" ++ s ++ ";P:" ++ p ++ ";;" := rfl

/-- Claim C2, counterexample: on wifi listing `yes:a:b` (an active SSID whose
text contains a colon), the code returns the truncated `a`, not the full SSID
field `a:b` that the claim demands. -/
theorem get_current_ssid_second_field_cex :
    (get_current_ssid cexEnvColon).1 = some "a"
    ∧ claimed_full_active_field (pyStrip (cexEnvColon wifiCmd).stdout) = some "a:b"
    ∧ ("a" : String) ≠ "a:b" := by decide

/-- Claim C2, amended: on a zero-exit wifi listing, `get_current_ssid`
returns the second colon-delimited field of the first line that *starts
with* `"yes"` (`none` when no such line exists or when that line has no
second field); an SSID containing a colon is therefore truncated at its
first colon. -/
theorem get_current_ssid_second_field (env : String → CmdResult)
    (h : (env wifiCmd).returncode = 0) :
    (get_current_ssid env).1
      = active_line_second_field (pyStrip (env wifiCmd).stdout) := by
  have hok : run_command wifiCmd (env wifiCmd) true
      = .ok (pyStrip (env wifiCmd).stdout) := by
    simp [run_command, h]
  simp [get_current_ssid, hok, active_line_second_field,
    first_yes_second_field_eq_find]

/-- Closed instance of the amended C2 theorem on a two-line listing. -/
theorem get_current_ssid_second_field_witness :
    (get_current_ssid witEnvWifi).1
      = active_line_second_field (pyStrip (witEnvWifi wifiCmd).stdout) :=
  get_current_ssid_second_field witEnvWifi (by decide)

/-- Claim C5, counterexample: on connection listing `yesx:u:v` no line has an
active field equal to `"yes"`, yet the code still extracts `u`, invokes the
elevated `pkexec` read, and does not return `None`. -/
theorem get_wifi_password_uuid_selection_cex :
    has_active_yes (pyStrip (cexEnvYesx connCmd).stdout) = false
    ∧ (get_wifi_password cexEnvYesx "s").2.countP isPkexecEvent = 1
    ∧ (get_wifi_password cexEnvYesx "s").1 ≠ none := by decide

/-- Claim C5, amended: on a zero-exit connection listing, the UUID is the
second colon-delimited field of the first line *starting with* `"yes"`; the
elevated `pkexec` command runs exactly when such a UUID is extracted, it is
passed that UUID, and when none is extracted the result is `None` with no
`pkexec` invocation. -/
theorem get_wifi_password_uuid_selection (env : String → CmdResult) (s : String)
    (h : (env connCmd).returncode = 0) :
    uuid_of env = active_line_second_field (pyStrip (env connCmd).stdout)
    ∧ ((get_wifi_password env s).2.countP isPkexecEvent
        = if (uuid_of env).isSome then 1 else 0)
    ∧ (∀ u, uuid_of env = some u →
        Event.runCmd (pkexecCmd u) ∈ (get_wifi_password env s).2)
    ∧ (uuid_of env = none → (get_wifi_password env s).1 = none) := by
  have hok : run_command connCmd (env connCmd) true
      = .ok (pyStrip (env connCmd).stdout) := by
    simp [run_command, h]
  refine ⟨?_, gwp_pkexec_count env s, ?_, ?_⟩
  · simp [uuid_of, hok, active_line_second_field, first_yes_second_field_eq_find]
  · intro u hu
    rcases gwp_shape env s with ⟨hu2, hg⟩ | ⟨u2, hu2, hg⟩
    · rw [hu] at hu2; cases hu2
    · rw [hu] at hu2
      injection hu2 with h2
      subst h2
      simp [hg]
  · intro hu
    rcases gwp_shape env s with ⟨hu2, hg⟩ | ⟨u2, hu2, hg⟩
    · simp [hg]
    · rw [hu] at hu2; cases hu2

/-- Closed instance of the amended C5 theorem on a two-line listing with an
active first line. -/
theorem get_wifi_password_uuid_selection_witness :
    uuid_of witEnvConn = active_line_second_field (pyStrip (witEnvConn connCmd).stdout)
    ∧ Event.runCmd (pkexecCmd "u1") ∈ (get_wifi_password witEnvConn "s").2 :=
  ⟨(get_wifi_password_uuid_selection witEnvConn "s" (by decide)).1,
   (get_wifi_password_uuid_selection witEnvConn "s" (by decide)).2.2.1 "u1"
     (by decide)⟩

/-- Claim C10: `get_wifi_password` ignores its `ssid` argument (it is only
logged), so with the same command environment any two SSIDs give the same
result. -/
theorem get_wifi_password_ignores_ssid (env : String → CmdResult)
    (s1 s2 : String) :
    (get_wifi_password env s1).1 = (get_wifi_password env s2).1 := rfl

/-- Claim C8: both parsers are total `Option`-valued functions of the
environment (their Lean types), and every failure is mapped to `none`: a
nonzero exit of the underlying command, and a malformed listing (no usable
`yes` line, including an active line with no colon-delimited second field,
the `IndexError` case). -/
theorem parsers_return_none_on_failure (env : String → CmdResult) (s : String) :
    ((env wifiCmd).returncode ≠ 0 → (get_current_ssid env).1 = none)
    ∧ ((env connCmd).returncode ≠ 0 → (get_wifi_password env s).1 = none)
    ∧ (first_yes_second_field (pySplitlines (pyStrip (env wifiCmd).stdout)) = none →
        (get_current_ssid env).1 = none)
    ∧ (first_yes_second_field (pySplitlines (pyStrip (env connCmd).stdout)) = none →
        (get_wifi_password env s).1 = none) := by
  refine ⟨?_, ?_, ?_, ?_⟩
  · intro h
    simp [get_current_ssid, run_command, h]
  · intro h
    simp [get_wifi_password, run_command, h]
  · intro h
    cases hr : run_command wifiCmd (env wifiCmd) true with
    | error e => simp [get_current_ssid, hr]
    | ok o =>
      have ho := run_command_ok _ _ _ _ hr
      subst ho
      simp [get_current_ssid, hr, h]
  · intro h
    cases hr : run_command connCmd (env connCmd) true with
    | error e => simp [get_wifi_password, hr]
    | ok o =>
      have ho := run_command_ok _ _ _ _ hr
      subst ho
      simp [get_wifi_password, hr, h]

/-- Closed instance of the C8 theorem: a failing command yields `None` from
both parsers. -/
theorem parsers_return_none_on_failure_witness :
    (get_current_ssid witEnvFail).1 = none
    ∧ (get_wifi_password witEnvFail "s").1 = none :=
  ⟨(parsers_return_none_on_failure witEnvFail "s").1 (by decide),
   (parsers_return_none_on_failure witEnvFail "s").2.1 (by decide)⟩

/-- Claim C7: the event alphabet of the embedding enumerates every external
interaction of `src/main.py` — subprocess runs, keyring accesses, GUI
surfaces — and contains no file read or write because the source performs
none. Within it, the only persistent external effect of a run is the keyring
write: it happens at most once per run and always under the service name
`KEYRING_SERVICE_NAME`. -/
theorem only_keyring_write_persists (env : Env) :
    (main env).countP isKeySetEvent ≤ 1
    ∧ (main env).all keySetServiceOK = true := by
  rcases main_shape env with h | ⟨s, m, h⟩ | ⟨s, c, hc, h⟩
    | ⟨s, t, ttl, m, ht, httl, h⟩ | ⟨s, u, p, hp, h⟩
  · rw [h]; exact ⟨by decide, by decide⟩
  · rw [h]
    constructor
    · simp [List.countP_cons, isKeySetEvent]
    · simp [keySetServiceOK]
  · rw [h]
    constructor
    · simp [List.countP_cons, isKeySetEvent]
    · simp [keySetServiceOK]
  · rcases ht with rfl | ⟨u, rfl⟩ <;> rw [h] <;> constructor <;>
      simp [List.countP_cons, List.countP_append, isKeySetEvent, keySetServiceOK]
  · rw [h]
    constructor
    · simp [List.countP_cons, isKeySetEvent]
    · simp [keySetServiceOK]

/-- Claim C4: every run surfaces exactly one of the two terminal outcomes —
one modal error dialog and no QR window, or one QR window and no error
dialog — and no command string is ever invoked twice (no retry). -/
theorem one_terminal_surface_no_retry (env : Env) :
    (((main env).countP isErrEvent = 1 ∧ (main env).countP isQREvent = 0)
      ∨ ((main env).countP isErrEvent = 0 ∧ (main env).countP isQREvent = 1))
    ∧ (cmdsOf (main env)).Nodup := by
  rcases main_shape env with h | ⟨s, m, h⟩ | ⟨s, c, hc, h⟩
    | ⟨s, t, ttl, m, ht, httl, h⟩ | ⟨s, u, p, hp, h⟩
  · rw [h]; exact ⟨.inl (by decide), by decide⟩
  · rw [h]
    refine ⟨.inl ⟨?_, ?_⟩, ?_⟩ <;>
      simp [List.countP_cons, isErrEvent, isQREvent, cmdsOf]
  · rw [h]
    refine ⟨.inr ⟨?_, ?_⟩, ?_⟩ <;>
      simp [List.countP_cons, isErrEvent, isQREvent, cmdsOf]
  · rcases ht with rfl | ⟨u, rfl⟩ <;> rw [h]
    · refine ⟨.inl ⟨?_, ?_⟩, ?_⟩ <;>
        simp [List.countP_cons, List.countP_append, isErrEvent, isQREvent,
          cmdsOf, wifiCmd_ne_connCmd]
    · refine ⟨.inl ⟨?_, ?_⟩, ?_⟩ <;>
        simp [List.countP_cons, List.countP_append, isErrEvent, isQREvent,
          cmdsOf, wifiCmd_ne_connCmd, (pkexecCmd_ne_wifiCmd u).symm,
          (pkexecCmd_ne_connCmd u).symm]
  · rw [h]
    refine ⟨.inr ⟨?_, ?_⟩, ?_⟩ <;>
      simp [List.countP_cons, isErrEvent, isQREvent, cmdsOf,
        wifiCmd_ne_connCmd, (pkexecCmd_ne_wifiCmd u).symm,
        (pkexecCmd_ne_connCmd u).symm]

/-- Claim C3, counterexample: SSID detected, keyring lookup returns no cached
password, yet the elevated command is never invoked, because the connection
listing has no line starting with `yes` — the claimed `if and only if` fails
in the `if` direction. -/
theorem elevated_fetch_gating_cex :
    (get_current_ssid cexEnvNoActive.cmd).1 = some "net"
    ∧ cexEnvNoActive.keyGetRes = .ok none
    ∧ (main cexEnvNoActive).countP isPkexecEvent = 0 :=
  ⟨by decide, rfl, by decide⟩

/-- Claim C3, amended: with a detected nonempty SSID and a successful keyring
lookup, the elevated `pkexec` command is invoked iff the lookup produced no
usable password (`None` or `""`) *and* a UUID is extracted from the
connection listing; and whenever the fetch returns a nonempty password and
the keyring write succeeds, the trace ends with that password being stored
under `(KEYRING_SERVICE_NAME, ssid)` immediately before the QR window. -/
theorem elevated_fetch_gating (env : Env) (s : String) (r : Option String)
    (hs : (get_current_ssid env.cmd).1 = some s) (hne : s ≠ "")
    (hk : env.keyGetRes = .ok r) :
    (0 < (main env).countP isPkexecEvent ↔
      ((r = none ∨ r = some "") ∧ (uuid_of env.cmd).isSome = true))
    ∧ (∀ p, (r = none ∨ r = some "") →
        (get_wifi_password env.cmd s).1 = some p → p ≠ "" →
        env.keySetRes = .ok () →
        ∃ t, main env
          = t ++ [.keySet KEYRING_SERVICE_NAME s p, .showQR s p]) := by
  have hm := main_unfold_detected env s hs hne
  constructor
  · by_cases hr : r = none ∨ r = some ""
    · have hmc := main_cached_fetch env s
        (by rcases hr with h | h
            · exact .inl (by rw [hk, h])
            · exact .inr (by rw [hk, h]))
      rw [hm, hmc]
      have hpw : pyStartsWith wifiCmd "pkexec " = false := by decide
      have hcount : List.countP isPkexecEvent (Event.runCmd wifiCmd
          :: Event.keyGet KEYRING_SERVICE_NAME s :: main_fetch env s)
          = List.countP isPkexecEvent (main_fetch env s) := by
        simp [List.countP_cons, isPkexecEvent, hpw]
      rw [hcount, main_fetch_pkexec_count, gwp_pkexec_count]
      cases huu : (uuid_of env.cmd).isSome
      · simp [huu]
      · simpa [huu] using hr
    · have hc : ∃ c, r = some c ∧ c ≠ "" := by
        rcases r with _ | c
        · exact absurd (.inl rfl) hr
        · exact ⟨c, rfl, fun hce => hr (.inr (by rw [hce]))⟩
      obtain ⟨c, rfl, hcne⟩ := hc
      have hshow : main_cached env s = [.showQR s c] := by
        simp [main_cached, hk, hcne]
      rw [hm, hshow]
      have hpw : pyStartsWith wifiCmd "pkexec " = false := by decide
      simp [List.countP_cons, isPkexecEvent, hpw, hcne]
  · intro p hr hp hpe hset
    have hmc := main_cached_fetch env s
      (by rcases hr with h | h
          · exact .inl (by rw [hk, h])
          · exact .inr (by rw [hk, h]))
    have hf : main_fetch env s = (get_wifi_password env.cmd s).2
        ++ [.keySet KEYRING_SERVICE_NAME s p, .showQR s p] := by
      simp [main_fetch, hp, hpe, hset]
    exact ⟨.runCmd wifiCmd :: .keyGet KEYRING_SERVICE_NAME s
        :: (get_wifi_password env.cmd s).2,
      by rw [hm, hmc, hf]; simp⟩

/-- Closed instance of the amended C3 theorem: empty keyring, active
connection, nonempty key — the `pkexec` read runs. -/
theorem elevated_fetch_gating_witness :
    0 < (main witEnvHappy).countP isPkexecEvent :=
  ((elevated_fetch_gating witEnvHappy "net" none (by decide) (by decide)
    rfl).1).mpr (by decide)

/-- Claim C9: an empty password is everywhere treated as absent. An empty
cached string still triggers the fetch (the connection listing runs); a
fetched password that strips to `""` is not cached, no QR window appears,
and the `Password not found` dialog does; and no run ever opens the QR
window with an empty password. -/
theorem empty_password_treated_as_absent (env : Env) (s : String)
    (hs : (get_current_ssid env.cmd).1 = some s) (hne : s ≠ "")
    (hk : env.keyGetRes = .ok none ∨ env.keyGetRes = .ok (some "")) :
    Event.runCmd connCmd ∈ main env
    ∧ ((get_wifi_password env.cmd s).1 = some "" →
        (main env).countP isKeySetEvent = 0
        ∧ (main env).countP isQREvent = 0
        ∧ Event.showError "Error" (pwNotFoundMsg s) ∈ main env)
    ∧ (∀ env2 : Env, (main env2).all qrNonEmpty = true) := by
  have hm := main_unfold_detected env s hs hne
  have hmc := main_cached_fetch env s hk
  refine ⟨?_, ?_, ?_⟩
  · rw [hm, hmc]
    obtain ⟨tail, ht⟩ := main_fetch_split env s
    rw [ht]
    exact List.mem_cons_of_mem _ (List.mem_cons_of_mem _
      (List.mem_append_left _ (gwp_conn_mem _ _)))
  · intro hp
    have hf : main_fetch env s = (get_wifi_password env.cmd s).2
        ++ [.showError "Error" (pwNotFoundMsg s)] := by
      simp [main_fetch, hp]
    rw [hm, hmc, hf]
    rcases gwp_shape env.cmd s with ⟨hu, hg⟩ | ⟨u, hu, hg⟩ <;>
      refine ⟨?_, ?_, ?_⟩ <;>
        simp [hg, List.countP_cons, List.countP_append, isKeySetEvent, isQREvent]
  · intro env2
    rcases main_shape env2 with h | ⟨s2, m, h⟩ | ⟨s2, c, hc, h⟩
      | ⟨s2, t, ttl, m, ht, httl, h⟩ | ⟨s2, u, p, hpne, h⟩
    · rw [h]; decide
    · rw [h]; simp [qrNonEmpty]
    · rw [h]; simp [qrNonEmpty, hc]
    · rcases ht with rfl | ⟨u, rfl⟩ <;> rw [h] <;>
        simp [qrNonEmpty, List.all_append]
    · rw [h]; simp [qrNonEmpty, hpne]

/-- Closed instance of the C9 theorem: empty cached password, whitespace-only
elevated read — the fetch runs and no QR window is shown. -/
theorem empty_password_treated_as_absent_witness :
    Event.runCmd connCmd ∈ main witEnvBlank
    ∧ (main witEnvBlank).countP isQREvent = 0 :=
  ⟨(empty_password_treated_as_absent witEnvBlank "net" (by decide) (by decide)
      (.inr rfl)).1,
   ((empty_password_treated_as_absent witEnvBlank "net" (by decide) (by decide)
      (.inr rfl)).2.1 (by decide)).2.1⟩

end Wisharify
